import Mathlib

/-!
Verification development for the plasma-gnome-screenshot-bridge program
(`src/plasma_gnome_screenshot_bridge/bridge.py`).

The program shells out to external tools and talks to a message bus; we
embed it shallowly: the external world is an `Env` (what `shutil.which`
resolves, what exit code or exception `subprocess.run` produces, whether
an async spawn succeeds), and every operation of the program becomes a
pure function of the `Env` that returns its value together with the list
of subprocess invocations it performed and the log records it emitted.
Machine-level details (bytes decoding of the child stream, wall-clock
time) are abstracted to `String` lines and `Nat` instants.
-/

namespace Bridge

/-- A Python exception, abstracted to its class/message text. -/
structure PyExn where
  msg : String
deriving DecidableEq, Repr

/-- Logging levels of the `logging` module as used by `bridge.py`. -/
inductive LogLevel
  | debug
  | info
  | warning
  | error
deriving DecidableEq, Repr, BEq

/-- A log record: level and message. -/
abbrev LogRec := LogLevel × String

/-- The external world.

`run c` models `subprocess.run(c, capture_output=True)`: it either
returns the child's exit code or raises (e.g. `FileNotFoundError` when
the executable is missing).  `which n` models
`shutil.which(n) is not None`.  `spawn c` models whether
`asyncio.create_subprocess_exec` succeeds for argv `c`. -/
structure Env where
  run : List String → Except PyExn Int
  which : String → Bool
  spawn : List String → Bool

/-- What a backend capture operation produced: its boolean result (or
the exception it raised), the subprocess invocations it attempted (in
order), and the log records it emitted. -/
structure CapResult where
  result : Except PyExn Bool
  cmds : List (List String)
  logs : List LogRec
deriving Repr

/-- Run one subprocess and turn exit code 0 into `true`
(`result.returncode == 0` in the source); a raised exception
propagates. -/
def runCheck (env : Env) (cmd : List String) : CapResult :=
  match env.run cmd with
  | .ok rc => { result := .ok (rc == 0), cmds := [cmd], logs := [] }
  | .error e => { result := .error e, cmds := [cmd], logs := [] }

/-! ### SpectacleBackend -/

/-- `SpectacleBackend.is_available`. -/
def SpectacleBackend.is_available (env : Env) : Bool :=
  env.which "spectacle"

/-- `SpectacleBackend.capture_full`: `spectacle -b -n -f -o filename`
plus `-p` when the cursor is requested. -/
def SpectacleBackend.capture_full (env : Env) (filename : String)
    (include_cursor : Bool) : CapResult :=
  runCheck env (["spectacle", "-b", "-n", "-f", "-o", filename]
    ++ (if include_cursor then ["-p"] else []))

/-- `SpectacleBackend.capture_area`: spectacle has no coordinate area
capture; logs a warning and delegates to `capture_full(filename)`
(cursor flag defaulted to false). The rectangle is ignored. -/
def SpectacleBackend.capture_area (env : Env) (filename : String)
    (_x _y _width _height : Int) : CapResult :=
  let r := SpectacleBackend.capture_full env filename false
  { r with logs :=
      (LogLevel.warning,
        "Spectacle does not support coordinate-based area capture, capturing full screen instead")
      :: r.logs }

/-- `SpectacleBackend.capture_window`: `spectacle -b -n -a -o filename`,
`-p` for cursor, `-e` when decorations are excluded. -/
def SpectacleBackend.capture_window (env : Env) (filename : String)
    (include_cursor include_decorations : Bool) : CapResult :=
  runCheck env (["spectacle", "-b", "-n", "-a", "-o", filename]
    ++ (if include_cursor then ["-p"] else [])
    ++ (if !include_decorations then ["-e"] else []))

/-! ### GrimBackend -/

/-- `GrimBackend.is_available`. -/
def GrimBackend.is_available (env : Env) : Bool :=
  env.which "grim"

/-- `GrimBackend.capture_full`: `grim [-c] filename`. -/
def GrimBackend.capture_full (env : Env) (filename : String)
    (include_cursor : Bool) : CapResult :=
  runCheck env (["grim"] ++ (if include_cursor then ["-c"] else []) ++ [filename])

/-- The geometry string built by the Python f-string
`f"{x},{y} {width}x{height}"`. -/
def grimGeometry (x y width height : Int) : String :=
  toString x ++ "," ++ toString y ++ " " ++ toString width ++ "x" ++ toString height

/-- `GrimBackend.capture_area`: `grim -g "x,y WxH" filename`. -/
def GrimBackend.capture_area (env : Env) (filename : String)
    (x y width height : Int) : CapResult :=
  runCheck env ["grim", "-g", grimGeometry x y width height, filename]

/-- `GrimBackend.capture_window`: grim has no window capture; logs a
warning and delegates to `capture_full(filename, include_cursor)`. -/
def GrimBackend.capture_window (env : Env) (filename : String)
    (include_cursor _include_decorations : Bool) : CapResult :=
  let r := GrimBackend.capture_full env filename include_cursor
  { r with logs :=
      (LogLevel.warning, "Grim does not support window capture, capturing full screen")
      :: r.logs }

/-! ### GnomeScreenshotBackend -/

/-- `GnomeScreenshotBackend.is_available`. -/
def GnomeScreenshotBackend.is_available (env : Env) : Bool :=
  env.which "gnome-screenshot"

/-- `GnomeScreenshotBackend.capture_full`: `gnome-screenshot -f filename`
plus `-p` for cursor. -/
def GnomeScreenshotBackend.capture_full (env : Env) (filename : String)
    (include_cursor : Bool) : CapResult :=
  runCheck env (["gnome-screenshot", "-f", filename]
    ++ (if include_cursor then ["-p"] else []))

/-- `GnomeScreenshotBackend.capture_area`: delegates to
`capture_full(filename)` with no log record at all (the source emits no
warning here, unlike the other degraded operations). -/
def GnomeScreenshotBackend.capture_area (env : Env) (filename : String)
    (_x _y _width _height : Int) : CapResult :=
  GnomeScreenshotBackend.capture_full env filename false

/-- `GnomeScreenshotBackend.capture_window`:
`gnome-screenshot -w -f filename`, `-p` for cursor, `-B` when
decorations are excluded. -/
def GnomeScreenshotBackend.capture_window (env : Env) (filename : String)
    (include_cursor include_decorations : Bool) : CapResult :=
  runCheck env (["gnome-screenshot", "-w", "-f", filename]
    ++ (if include_cursor then ["-p"] else [])
    ++ (if !include_decorations then ["-B"] else []))

/-! ### Backend dispatch and detection -/

/-- The closed set of backend classes. -/
inductive Backend
  | spectacle
  | grim
  | gnomeScreenshot
deriving DecidableEq, Repr, BEq

/-- The `name` class attribute of each backend. -/
def Backend.name : Backend → String
  | .spectacle => "spectacle"
  | .grim => "grim"
  | .gnomeScreenshot => "gnome-screenshot"

/-- Dispatch of `is_available` over the backend classes. -/
def Backend.is_available : Backend → Env → Bool
  | .spectacle => SpectacleBackend.is_available
  | .grim => GrimBackend.is_available
  | .gnomeScreenshot => GnomeScreenshotBackend.is_available

/-- Dispatch of `capture_full`. -/
def Backend.capture_full : Backend → Env → String → Bool → CapResult
  | .spectacle => SpectacleBackend.capture_full
  | .grim => GrimBackend.capture_full
  | .gnomeScreenshot => GnomeScreenshotBackend.capture_full

/-- Dispatch of `capture_area`. -/
def Backend.capture_area : Backend → Env → String → Int → Int → Int → Int → CapResult
  | .spectacle => SpectacleBackend.capture_area
  | .grim => GrimBackend.capture_area
  | .gnomeScreenshot => GnomeScreenshotBackend.capture_area

/-- Dispatch of `capture_window`. -/
def Backend.capture_window : Backend → Env → String → Bool → Bool → CapResult
  | .spectacle => SpectacleBackend.capture_window
  | .grim => GrimBackend.capture_window
  | .gnomeScreenshot => GnomeScreenshotBackend.capture_window

/-- The module-level `BACKENDS` list, in its fixed order. -/
def BACKENDS : List Backend :=
  [.spectacle, .grim, .gnomeScreenshot]

/-- `detect_backend(preferred)`.  Python's `if preferred:` is false for
both `None` and the empty string.  The preferred scan stops at the first
name match (the loop breaks there whether or not that backend is
available); an unavailable or unmatched preference falls through to the
auto-detect scan, which returns the first available backend of
`BACKENDS`. -/
def detect_backend (env : Env) (preferred : Option String) : Option Backend :=
  let auto := BACKENDS.find? (fun b => b.is_available env)
  match preferred with
  | none => auto
  | some p =>
    if p = "" then auto
    else
      match BACKENDS.find? (fun b => b.name == p) with
      | some b => if b.is_available env then some b else auto
      | none => auto

/-! ### ScreenshotInterface (org.gnome.Shell.Screenshot) -/

/-- The mutable attributes of a `ScreenshotInterface` instance. -/
structure ScreenshotInterface where
  backend : Backend
  warn_before : Bool
deriving Repr

/-- The fixed argv of the best-effort `notify-send` pre-capture
notification. -/
def notifyCmd : List String :=
  ["notify-send", "-u", "normal", "-t", "2000",
   "Screenshot", "A screenshot will be taken..."]

/-- `ScreenshotInterface._maybe_warn`: when `warn_before` is set, run
`notify-send`; its result is discarded and any exception it raises is
swallowed (`except Exception: pass`).  Returns the subprocess
invocations attempted. -/
def maybe_warn (iface : ScreenshotInterface) (env : Env) : List (List String) :=
  if iface.warn_before then
    match env.run notifyCmd with
    | .ok _ => [notifyCmd]
    | .error _ => [notifyCmd]
  else []

/-- What a DBus method call produced: the `(success, filename)` reply,
the subprocess invocations, and the log records.  The reply is a plain
pair: by construction of the embedding, nothing escapes the method. -/
structure MethodOut where
  result : Bool × String
  cmds : List (List String)
  logs : List LogRec
deriving Repr

/-- Shared shape of the three method bodies: entry `logger.info`, a
`_maybe_warn`, then the delegated capture inside `try`; an `ok` outcome
is logged at info level and returned as `(success, filename)`, a raised
exception is logged by `logger.exception` (error level) and converted
to `(false, filename)`. -/
def methodBody (tag : String) (warnCmds : List (List String))
    (cap : CapResult) (filename : String) : MethodOut :=
  match cap.result with
  | .ok success =>
    { result := (success, filename)
      cmds := warnCmds ++ cap.cmds
      logs := (LogLevel.info, tag ++ " requested") :: cap.logs
        ++ [(LogLevel.info, tag ++ (if success then " saved: " else " failed: ") ++ filename)] }
  | .error ex =>
    { result := (false, filename)
      cmds := warnCmds ++ cap.cmds
      logs := (LogLevel.info, tag ++ " requested") :: cap.logs
        ++ [(LogLevel.error, tag ++ " error: " ++ ex.msg)] }

/-- `ScreenshotInterface.Screenshot(include_cursor, flash, filename)`:
delegates to `backend.capture_full(filename, include_cursor)`;
`flash` is accepted but never read. -/
def ScreenshotInterface.Screenshot (iface : ScreenshotInterface) (env : Env)
    (include_cursor flash : Bool) (filename : String) : MethodOut :=
  methodBody "Screenshot" (maybe_warn iface env)
    (iface.backend.capture_full env filename include_cursor) filename

/-- `ScreenshotInterface.ScreenshotWindow(include_frame, include_cursor,
flash, filename)`: delegates to
`backend.capture_window(filename, include_cursor, include_frame)`. -/
def ScreenshotInterface.ScreenshotWindow (iface : ScreenshotInterface) (env : Env)
    (include_frame include_cursor flash : Bool) (filename : String) : MethodOut :=
  methodBody "Window screenshot" (maybe_warn iface env)
    (iface.backend.capture_window env filename include_cursor include_frame) filename

/-- `ScreenshotInterface.ScreenshotArea(x, y, width, height, flash,
filename)`: delegates to
`backend.capture_area(filename, x, y, width, height)`. -/
def ScreenshotInterface.ScreenshotArea (iface : ScreenshotInterface) (env : Env)
    (x y width height : Int) (flash : Bool) (filename : String) : MethodOut :=
  methodBody "Area screenshot" (maybe_warn iface env)
    (iface.backend.capture_area env filename x y width height) filename

/-! ### IdleMonitorInterface (org.gnome.Mutter.IdleMonitor) -/

/-- Python `str.strip()` whitespace set (ASCII part). -/
def pyWhitespace : List Char :=
  [' ', '\t', '\n', '\x0d', '\x0b', '\x0c']

/-- Python `str.strip()`: drop leading and trailing whitespace. -/
def pyStrip (s : String) : String :=
  ⟨((s.data.dropWhile (· ∈ pyWhitespace)).reverse.dropWhile
      (· ∈ pyWhitespace)).reverse⟩

/-- One iteration of `_idle_loop`: a line was read from the child at
instant `now`; the `last_active` timestamp becomes `now` exactly when
the decoded, stripped line is `"resume"`, and is untouched otherwise. -/
def idleStep (now last : Nat) (line : String) : Nat :=
  if pyStrip line = "resume" then now else last

/-- The whole read loop over a finite event stream: each element pairs
the instant a line arrives with the (decoded) line text. -/
def idleLoop (events : List (Nat × String)) (last0 : Nat) : Nat :=
  events.foldl (fun last e => idleStep e.1 last e.2) last0

/-- The mutable attributes of an `IdleMonitorInterface` instance.
`monitor_task` / `monitor_process` record whether `_monitor_task` /
`_monitor_process` are set (they are never reset to `None`). -/
structure IdleMonitorState where
  last_active : Nat
  monitor_task : Bool
  monitor_process : Bool
deriving DecidableEq, Repr

/-- `IdleMonitorInterface.__init__`: seeds `last_active` with the
current instant; no task, no process. -/
def IdleMonitorInterface.mkInitial (now : Nat) : IdleMonitorState :=
  { last_active := now, monitor_task := false, monitor_process := false }

/-- The fixed `swayidle` argv of `start_monitoring`. -/
def swayidleCmd : List String :=
  ["swayidle", "-w", "timeout", "1", "echo timeout", "resume", "echo resume"]

/-- Externally visible actions of the bridge, for counting side
effects. -/
inductive Event
  | busConnect
  | busExport (path : String)
  | requestName (busName : String)
  | spawnIdleHelper
  | cancelIdleTask
  | terminateIdleHelper
  | busDisconnect
deriving DecidableEq, Repr, BEq

/-- `IdleMonitorInterface.start_monitoring`: when `swayidle` resolves
and the spawn succeeds, record the process and the read task and report
success; otherwise (helper missing or spawn raising) only log and
report failure. -/
def IdleMonitorInterface.start_monitoring (env : Env) (m : IdleMonitorState) :
    IdleMonitorState × Bool × List Event :=
  if env.which "swayidle" then
    if env.spawn swayidleCmd then
      ({ m with monitor_process := true, monitor_task := true }, true,
        [Event.spawnIdleHelper])
    else (m, false, [])
  else (m, false, [])

/-- `IdleMonitorInterface.stop_monitoring`: if a task is recorded,
cancel and await it (swallowing the cancellation); if a process is
recorded, terminate it and wait.  Neither field is cleared. -/
def IdleMonitorInterface.stop_monitoring (m : IdleMonitorState) :
    IdleMonitorState × List Event :=
  (m, (if m.monitor_task then [Event.cancelIdleTask] else [])
    ++ (if m.monitor_process then [Event.terminateIdleHelper] else []))

/-! ### ScreenshotBridge orchestrator -/

/-- The mutable attributes of a `ScreenshotBridge` instance.  `bus`
records whether `self.bus` is set (it is never reset to `None`). -/
structure BridgeState where
  backend_name : Option String
  warn_before : Bool
  enable_idle : Bool
  bus : Bool
  idle_monitor : Option IdleMonitorState
  running : Bool
deriving DecidableEq, Repr

/-- `ScreenshotBridge.__init__`. -/
def ScreenshotBridge.mkInitial (backend : Option String)
    (warn_before enable_idle : Bool) : BridgeState :=
  { backend_name := backend
    warn_before := warn_before
    enable_idle := enable_idle
    bus := false
    idle_monitor := none
    running := false }

/-- `ScreenshotBridge.start`: detect a backend; with none, log and
return `False` with nothing touched.  Otherwise connect the bus, export
the screenshot interface and claim its name; when idle tracking is
enabled also construct, start and export the idle monitor; finally set
`_running`. -/
def ScreenshotBridge.start (env : Env) (now : Nat) (s : BridgeState) :
    Bool × BridgeState × List Event :=
  match detect_backend env s.backend_name with
  | none => (false, s, [])
  | some _ =>
    let evs := [Event.busConnect,
      Event.busExport "/org/gnome/Shell/Screenshot",
      Event.requestName "org.gnome.Shell.Screenshot"]
    if s.enable_idle then
      let m0 := IdleMonitorInterface.mkInitial now
      let r := IdleMonitorInterface.start_monitoring env m0
      (true,
        { s with bus := true, idle_monitor := some r.1, running := true },
        evs ++ r.2.2
          ++ [Event.busExport "/org/gnome/Mutter/IdleMonitor/Core",
              Event.requestName "org.gnome.Mutter.IdleMonitor"])
    else
      (true, { s with bus := true, running := true }, evs)

/-- `ScreenshotBridge.stop`: clear `_running`; if an idle monitor was
ever created, stop it; if the bus was ever connected, disconnect it.
Neither `idle_monitor` nor `bus` is cleared, so a later call repeats
the teardown. -/
def ScreenshotBridge.stop (s : BridgeState) : BridgeState × List Event :=
  let s1 := { s with running := false }
  (s1,
    (match s.idle_monitor with
     | some m => (IdleMonitorInterface.stop_monitoring m).2
     | none => [])
    ++ (if s.bus then [Event.busDisconnect] else []))

/-- Number of bus disconnections in an event trace. -/
def disconnectCount (evs : List Event) : Nat :=
  evs.count Event.busDisconnect

/-! ### Concrete environments for witnesses and counterexamples -/

/-- An environment where every tool resolves, every spawn succeeds and
every subprocess exits 0. -/
def envAll : Env :=
  { run := fun _ => .ok 0, which := fun _ => true, spawn := fun _ => true }

/-- An environment where no executable resolves; `subprocess.run`
raises `FileNotFoundError`. -/
def envNone : Env :=
  { run := fun _ => .error ⟨"FileNotFoundError"⟩
    which := fun _ => false
    spawn := fun _ => false }

/-- The bridge state right after a successful `start()` with all tools
available and idle tracking enabled. -/
def startedState : BridgeState :=
  (ScreenshotBridge.start envAll 0 (ScreenshotBridge.mkInitial none false true)).2.1

/-- A screenshot interface wrapping the grim backend, no pre-capture
warning. -/
def grimIface : ScreenshotInterface :=
  { backend := Backend.grim, warn_before := false }

/-! ### Helper lemmas -/

/-- `runCheck` emits no log record, whether or not the child raises. -/
theorem runCheck_logs (env : Env) (cmd : List String) :
    (runCheck env cmd).logs = [] := by
  unfold runCheck
  cases env.run cmd <;> rfl

/-- `runCheck` attempts exactly its one subprocess. -/
theorem runCheck_cmds (env : Env) (cmd : List String) :
    (runCheck env cmd).cmds = [cmd] := by
  unfold runCheck
  cases env.run cmd <;> rfl

/-- The second component of a method reply is always the filename. -/
theorem methodBody_result_snd (tag : String) (warnCmds : List (List String))
    (cap : CapResult) (filename : String) :
    (methodBody tag warnCmds cap filename).result.2 = filename := by
  unfold methodBody
  cases cap.result <;> rfl

/-- A stream with no resume line never moves the timestamp. -/
theorem idleLoop_no_resume (events : List (Nat × String)) (last0 : Nat)
    (hnr : ∀ e ∈ events, pyStrip e.2 ≠ "resume") :
    idleLoop events last0 = last0 := by
  revert hnr
  induction events generalizing last0 with
  | nil => intro _; rfl
  | cons e es ih =>
    intro hnr
    have he : pyStrip e.2 ≠ "resume" := hnr e (List.mem_cons_self e es)
    have heq : idleLoop (e :: es) last0 = idleLoop es (idleStep e.1 last0 e.2) := rfl
    rw [heq, idleStep, if_neg he]
    exact ih last0 (fun e2 h2 => hnr e2 (List.mem_cons_of_mem e h2))

/-- A method reply is the ok-to-pair, error-to-false collapse of the
delegated capture result. -/
theorem methodBody_result (tag : String) (warnCmds : List (List String))
    (cap : CapResult) (filename : String) :
    (methodBody tag warnCmds cap filename).result =
      (match cap.result with
       | .ok ok => (ok, filename)
       | .error _ => (false, filename)) := by
  unfold methodBody
  cases cap.result <;> rfl

/-- The last element of a cons around an appended singleton. -/
theorem getLast?_cons_concat {α : Type} (a b : α) (l : List α) :
    (a :: (l ++ [b])).getLast? = some b := by
  rw [← List.cons_append, List.getLast?_append_cons]
  rfl

/-- The final log record of a method call: the saved/failed info record
when the delegated capture returned, and the `logger.exception` error
record carrying the exception text when it raised. -/
theorem methodBody_logs_last (tag : String) (warnCmds : List (List String))
    (cap : CapResult) (filename : String) :
    (methodBody tag warnCmds cap filename).logs.getLast? =
      some (match cap.result with
        | .ok success =>
          (LogLevel.info, tag ++ (if success then " saved: " else " failed: ") ++ filename)
        | .error ex => (LogLevel.error, tag ++ " error: " ++ ex.msg)) := by
  unfold methodBody
  split <;> exact getLast?_cons_concat _ _ _

/-! ### Claim theorems -/

/-- C1 (counterexample): the claim says every capability-degraded
capture operation emits a warning-level diagnostic.  At the concrete
input below, `GnomeScreenshotBackend.capture_area` degrades to
`capture_full` yet emits no log record at all — in particular no
warning-level one. -/
theorem C1_counterexample :
    (Backend.gnomeScreenshot.capture_area envAll "/tmp/a.png" 0 0 10 10).result
      = (Backend.gnomeScreenshot.capture_full envAll "/tmp/a.png" false).result
    ∧ (Backend.gnomeScreenshot.capture_area envAll "/tmp/a.png" 0 0 10 10).logs = [] :=
  ⟨rfl, rfl⟩

/-- C1 (amended): every unsupported capture kind degrades to
`capture_full` with the same result and the same subprocess invocation
(cursor flag preserved where the operation has one), and never fails
solely for the missing capability; the spectacle area capture and the
grim window capture each emit exactly one warning-level diagnostic,
while the gnome-screenshot area capture degrades silently, emitting no
diagnostic. -/
theorem C1_amended_degradation (env : Env) (filename : String)
    (x y width height : Int) (include_cursor include_decorations : Bool) :
    ((SpectacleBackend.capture_area env filename x y width height).result
        = (SpectacleBackend.capture_full env filename false).result
      ∧ (SpectacleBackend.capture_area env filename x y width height).cmds
        = (SpectacleBackend.capture_full env filename false).cmds
      ∧ (SpectacleBackend.capture_area env filename x y width height).logs.map Prod.fst
        = [LogLevel.warning])
    ∧ ((GrimBackend.capture_window env filename include_cursor include_decorations).result
        = (GrimBackend.capture_full env filename include_cursor).result
      ∧ (GrimBackend.capture_window env filename include_cursor include_decorations).cmds
        = (GrimBackend.capture_full env filename include_cursor).cmds
      ∧ (GrimBackend.capture_window env filename include_cursor include_decorations).logs.map Prod.fst
        = [LogLevel.warning])
    ∧ ((GnomeScreenshotBackend.capture_area env filename x y width height).result
        = (GnomeScreenshotBackend.capture_full env filename false).result
      ∧ (GnomeScreenshotBackend.capture_area env filename x y width height).cmds
        = (GnomeScreenshotBackend.capture_full env filename false).cmds
      ∧ (GnomeScreenshotBackend.capture_area env filename x y width height).logs = []) := by
  refine ⟨⟨rfl, rfl, ?_⟩, ⟨rfl, rfl, ?_⟩, rfl, rfl, ?_⟩
  · simp [SpectacleBackend.capture_area, SpectacleBackend.capture_full, runCheck_logs]
  · simp [GrimBackend.capture_window, GrimBackend.capture_full, runCheck_logs]
  · simp [GnomeScreenshotBackend.capture_area, GnomeScreenshotBackend.capture_full,
      runCheck_logs]

/-- C2 (counterexample): after a successful `start()`, two successive
`stop()` calls invoke the bus disconnection twice, not exactly once —
`stop()` never clears the `bus` field, so the second call repeats the
teardown. -/
theorem C2_counterexample :
    disconnectCount ((ScreenshotBridge.stop startedState).2
      ++ (ScreenshotBridge.stop (ScreenshotBridge.stop startedState).1).2) = 2 := by
  decide

/-- C2 (amended): a second `stop()` raises nothing in the bridge logic
and leaves the state exactly where the first call left it, and it emits
the very same teardown actions again: with the bus connected, the bus
disconnection is invoked exactly twice across the two calls (once per
call), not once. -/
theorem C2_amended_stop_twice (s : BridgeState) :
    (ScreenshotBridge.stop (ScreenshotBridge.stop s).1).1 = (ScreenshotBridge.stop s).1
    ∧ (ScreenshotBridge.stop (ScreenshotBridge.stop s).1).2 = (ScreenshotBridge.stop s).2
    ∧ disconnectCount ((ScreenshotBridge.stop s).2
        ++ (ScreenshotBridge.stop (ScreenshotBridge.stop s).1).2)
      = (if s.bus then 2 else 0) := by
  obtain ⟨bn, wb, ei, bus, im, r⟩ := s
  refine ⟨rfl, rfl, ?_⟩
  rcases im with _ | ⟨la, mt, mp⟩
  · cases bus <;>
      simp [ScreenshotBridge.stop, disconnectCount] <;> decide
  · cases bus <;> cases mt <;> cases mp <;>
      simp [ScreenshotBridge.stop, IdleMonitorInterface.stop_monitoring,
        disconnectCount] <;> decide

/-- C3: with no preferred name, `detect_backend` returns the first
available backend in the fixed order spectacle, grim, gnome-screenshot,
and returns nothing exactly when no backend executable resolves. -/
theorem C3_detect_auto (env : Env) :
    detect_backend env none =
      (if env.which "spectacle" then some Backend.spectacle
       else if env.which "grim" then some Backend.grim
       else if env.which "gnome-screenshot" then some Backend.gnomeScreenshot
       else none)
    ∧ (detect_backend env none = none ↔
        ∀ b ∈ BACKENDS, b.is_available env = false) := by
  cases h1 : env.which "spectacle" <;> cases h2 : env.which "grim" <;>
    cases h3 : env.which "gnome-screenshot" <;>
      simp [detect_backend, BACKENDS, Backend.is_available,
        SpectacleBackend.is_available, GrimBackend.is_available,
        GnomeScreenshotBackend.is_available, h1, h2, h3]

/-- C4: with the grim backend, `ScreenshotArea(10, 20, 300, 200, false,
"/tmp/a.png")` invokes grim with geometry `"10,20 300x200"` and that
target path, and a zero exit yields `(true, "/tmp/a.png")`; in general
the area capture invokes exactly one subprocess whose geometry argument
is the `"x,y WxH"` rendering of the rectangle. -/
theorem C4_grim_area_scenario (env : Env)
    (hrun : env.run ["grim", "-g", "10,20 300x200", "/tmp/a.png"] = .ok 0) :
    (grimIface.ScreenshotArea env 10 20 300 200 false "/tmp/a.png").result
      = (true, "/tmp/a.png")
    ∧ (grimIface.ScreenshotArea env 10 20 300 200 false "/tmp/a.png").cmds
      = [["grim", "-g", "10,20 300x200", "/tmp/a.png"]]
    ∧ grimGeometry 10 20 300 200 = "10,20 300x200"
    ∧ (∀ (a b w hh : Int) (fn : String),
        (GrimBackend.capture_area env fn a b w hh).cmds
          = [["grim", "-g", grimGeometry a b w hh, fn]]) := by
  have hg : grimGeometry 10 20 300 200 = "10,20 300x200" := rfl
  refine ⟨?_, ?_, hg, ?_⟩
  · simp [grimIface, ScreenshotInterface.ScreenshotArea, methodBody, maybe_warn,
      Backend.capture_area, GrimBackend.capture_area, runCheck, hg, hrun]
  · simp [grimIface, ScreenshotInterface.ScreenshotArea, methodBody, maybe_warn,
      Backend.capture_area, GrimBackend.capture_area, runCheck, hg, hrun]
  · intro a b w hh fn
    simp [GrimBackend.capture_area, runCheck_cmds]

/-- C4 witness: the scenario evaluated in the all-zero-exit
environment. -/
theorem C4_grim_area_scenario_witness :
    envAll.run ["grim", "-g", "10,20 300x200", "/tmp/a.png"] = .ok 0
    ∧ (grimIface.ScreenshotArea envAll 10 20 300 200 false "/tmp/a.png").result
      = (true, "/tmp/a.png") :=
  ⟨rfl, (C4_grim_area_scenario envAll rfl).1⟩

/-- C5: in the idle read loop, a line updates the last-activity
timestamp to the current instant exactly when its stripped text is
`"resume"`; a `"timeout"` line leaves it unchanged, and a stream with
no resume line leaves the timestamp where it started. -/
theorem C5_resume_updates (now last last0 : Nat) (line : String)
    (events : List (Nat × String))
    (hne : now ≠ last)
    (hnr : ∀ e ∈ events, pyStrip e.2 ≠ "resume") :
    (idleStep now last line = now ↔ pyStrip line = "resume")
    ∧ idleStep now last "timeout\n" = last
    ∧ idleLoop events last0 = last0 := by
  refine ⟨?_, ?_, ?_⟩
  · unfold idleStep
    by_cases hres : pyStrip line = "resume" <;> simp [hres, hne, Ne.symm hne]
  · have ht : pyStrip "timeout\n" = "timeout" := by decide
    simp [idleStep, ht]
  · exact idleLoop_no_resume events last0 hnr

/-- C5 witness: concrete instants and a concrete resume-free stream. -/
theorem C5_resume_updates_witness :
    ((1 : Nat) ≠ 0 ∧ ∀ e ∈ [((5 : Nat), "timeout\n"), (7, " echo ")], pyStrip e.2 ≠ "resume")
    ∧ ((idleStep 1 0 " resume\n" = 1 ↔ pyStrip " resume\n" = "resume")
      ∧ idleStep 1 0 "timeout\n" = 0
      ∧ idleLoop [((5 : Nat), "timeout\n"), (7, " echo ")] 3 = 3) :=
  ⟨⟨by decide, by decide⟩,
    C5_resume_updates 1 0 3 " resume\n" [(5, "timeout\n"), (7, " echo ")]
      (by decide) (by decide)⟩

/-- C6: each of the three methods catches any exception raised by the
delegated capture, logs it, and replies `(false, filename)`: the reply
is the ok-to-pair, error-to-false collapse of the capture outcome, and
the final log record of the call is the saved/failed info record when
the capture returned and an error-level record carrying the exception
text when it raised — the reply being a plain value, nothing propagates
to the transport.  Concretely, with every spawn raising
`FileNotFoundError`, a grim-backed `Screenshot` replies
`(false, "/tmp/x.png")` and ends its log with an error-level record. -/
theorem C6_exceptions_caught (iface : ScreenshotInterface) (env : Env)
    (include_cursor include_frame flash : Bool) (x y width height : Int)
    (filename : String) :
    ((iface.Screenshot env include_cursor flash filename).result =
      match (iface.backend.capture_full env filename include_cursor).result with
      | .ok ok => (ok, filename)
      | .error _ => (false, filename))
    ∧ ((iface.Screenshot env include_cursor flash filename).logs.getLast? =
      some (match (iface.backend.capture_full env filename include_cursor).result with
      | .ok success =>
        (LogLevel.info, "Screenshot" ++ (if success then " saved: " else " failed: ") ++ filename)
      | .error ex => (LogLevel.error, "Screenshot error: " ++ ex.msg)))
    ∧ ((iface.ScreenshotWindow env include_frame include_cursor flash filename).result =
      match (iface.backend.capture_window env filename include_cursor include_frame).result with
      | .ok ok => (ok, filename)
      | .error _ => (false, filename))
    ∧ ((iface.ScreenshotWindow env include_frame include_cursor flash filename).logs.getLast? =
      some (match (iface.backend.capture_window env filename include_cursor include_frame).result with
      | .ok success =>
        (LogLevel.info, "Window screenshot" ++ (if success then " saved: " else " failed: ") ++ filename)
      | .error ex => (LogLevel.error, "Window screenshot error: " ++ ex.msg)))
    ∧ ((iface.ScreenshotArea env x y width height flash filename).result =
      match (iface.backend.capture_area env filename x y width height).result with
      | .ok ok => (ok, filename)
      | .error _ => (false, filename))
    ∧ ((iface.ScreenshotArea env x y width height flash filename).logs.getLast? =
      some (match (iface.backend.capture_area env filename x y width height).result with
      | .ok success =>
        (LogLevel.info, "Area screenshot" ++ (if success then " saved: " else " failed: ") ++ filename)
      | .error ex => (LogLevel.error, "Area screenshot error: " ++ ex.msg)))
    ∧ (grimIface.Screenshot envNone true flash "/tmp/x.png").result
      = (false, "/tmp/x.png")
    ∧ (grimIface.Screenshot envNone true flash "/tmp/x.png").logs.getLast?
      = some (LogLevel.error, "Screenshot error: FileNotFoundError") :=
  ⟨methodBody_result _ _ _ _, methodBody_logs_last _ _ _ _,
    methodBody_result _ _ _ _, methodBody_logs_last _ _ _ _,
    methodBody_result _ _ _ _, methodBody_logs_last _ _ _ _,
    rfl, rfl⟩

/-- C7: the `flash` argument never influences a reply — two calls to
any of the three methods that differ only in `flash` produce the same
reply, the same subprocess invocations and the same logs. -/
theorem C7_flash_unused (iface : ScreenshotInterface) (env : Env)
    (include_cursor include_frame flash1 flash2 : Bool)
    (x y width height : Int) (filename : String) :
    iface.Screenshot env include_cursor flash1 filename
      = iface.Screenshot env include_cursor flash2 filename
    ∧ iface.ScreenshotWindow env include_frame include_cursor flash1 filename
      = iface.ScreenshotWindow env include_frame include_cursor flash2 filename
    ∧ iface.ScreenshotArea env x y width height flash1 filename
      = iface.ScreenshotArea env x y width height flash2 filename :=
  ⟨rfl, rfl, rfl⟩

/-- C8: a preferred name that names an available backend makes
`detect_backend` return that backend, wherever it sits in the list. -/
theorem C8_detect_preferred (env : Env) (b : Backend) (p : String)
    (hname : b.name = p) (havail : b.is_available env = true) :
    detect_backend env (some p) = some b := by
  subst hname
  cases b <;>
    simp_all [detect_backend, BACKENDS, Backend.name, Backend.is_available,
      SpectacleBackend.is_available, GrimBackend.is_available,
      GnomeScreenshotBackend.is_available]

/-- C8 witness: the grim backend, preferred by name, in an environment
where everything resolves. -/
theorem C8_detect_preferred_witness :
    Backend.grim.name = "grim" ∧ Backend.grim.is_available envAll = true
    ∧ detect_backend envAll (some "grim") = some Backend.grim :=
  ⟨rfl, rfl, C8_detect_preferred envAll Backend.grim "grim" rfl rfl⟩

/-- C9: every method echoes the filename argument unchanged as the
second element of its reply, in the success, failure and
caught-exception cases alike. -/
theorem C9_filename_echoed (iface : ScreenshotInterface) (env : Env)
    (include_cursor include_frame flash : Bool) (x y width height : Int)
    (filename : String) :
    (iface.Screenshot env include_cursor flash filename).result.2 = filename
    ∧ (iface.ScreenshotWindow env include_frame include_cursor flash filename).result.2
      = filename
    ∧ (iface.ScreenshotArea env x y width height flash filename).result.2 = filename :=
  ⟨methodBody_result_snd _ _ _ _, methodBody_result_snd _ _ _ _,
    methodBody_result_snd _ _ _ _⟩

/-- C10: when no backend is detected, `start()` returns failure with
the freshly constructed state untouched and no external action at all:
the bus stays unset and unconnected, nothing is exported or named, no
idle monitor exists, and the running flag stays false. -/
theorem C10_start_no_backend (env : Env) (now : Nat)
    (backend : Option String) (warn_before enable_idle : Bool)
    (hdet : detect_backend env backend = none) :
    ScreenshotBridge.start env now
        (ScreenshotBridge.mkInitial backend warn_before enable_idle)
      = (false, ScreenshotBridge.mkInitial backend warn_before enable_idle, [])
    ∧ (ScreenshotBridge.mkInitial backend warn_before enable_idle).bus = false
    ∧ (ScreenshotBridge.mkInitial backend warn_before enable_idle).idle_monitor = none
    ∧ (ScreenshotBridge.mkInitial backend warn_before enable_idle).running = false := by
  unfold ScreenshotBridge.start
  simp [ScreenshotBridge.mkInitial, hdet]

/-- C10 witness: the environment where nothing resolves. -/
theorem C10_start_no_backend_witness :
    detect_backend envNone none = none
    ∧ ScreenshotBridge.start envNone 0 (ScreenshotBridge.mkInitial none false true)
      = (false, ScreenshotBridge.mkInitial none false true, []) :=
  ⟨rfl, (C10_start_no_backend envNone 0 none false true rfl).1⟩

end Bridge
